import Mathlib

/-!
Verification of the viral-tweet scraping pipeline (`scrape.py`).

This file gives a shallow embedding of the program's core functions and
proves or refutes the specification's claims about them.  Pure helpers
(`escape_markdown_v2`, `create_safe_url_link`, `cleanup_old_sent_tweets`,
`get_best_media_url`) are translated directly; the effectful parts
(Telegram sends, media URL probing, the seen-set file, the scraping cycle)
are embedded by passing an explicit environment of oracles (probe and send
outcomes) and by recording the externally visible effects (messages sent,
lines appended to the backing file, sleeps performed) in an explicit state
or trace.  Machine-level concerns do not arise: all counters are `Nat`.
-/

namespace Scrape

/-! ### Markup sanitizer (`escape_markdown_v2`, `create_safe_url_link`) -/

/-- The reserved character set of Telegram MarkdownV2, in the exact order the
source iterates over it.  The ninth element is the backquote character,
written via its code point. -/
def specialChars : List Char :=
  ['_', '*', '[', ']', '(', ')', '~', Char.ofNat 96, '>', '#',
   '+', '-', '=', '|', '{', '}', '.', '!']

/-- Expand every character of a list through `f`, concatenating the results.
`Python str.replace` with a single-character needle is exactly such an
expansion. -/
def expand (f : Char → List Char) : List Char → List Char
  | [] => []
  | x :: xs => f x ++ expand f xs

/-- One pass `text.replace(c, "\\" + c)` of the source, at the level of
character lists. -/
def escListStep (l : List Char) (c : Char) : List Char :=
  expand (fun x => if x = c then ['\\', c] else [x]) l

/-- `escape_markdown_v2` from the source: empty (falsy) input yields the empty
string, otherwise the eighteen single-character replaces are applied in
order. -/
def escape_markdown_v2 (s : String) : String :=
  if s.isEmpty then String.mk [] else String.mk (specialChars.foldl escListStep s.data)

/-- `create_safe_url_link` from the source: empty (falsy) url yields the empty
string; a falsy display text defaults to the fixed placeholder; the label is
escaped, the url embedded verbatim. -/
def create_safe_url_link (url : String) (displayText : String) : String :=
  if url.isEmpty then String.mk []
  else
    let d := if displayText.isEmpty then "Link" else displayText
    "[" ++ escape_markdown_v2 d ++ "](" ++ url ++ ")"

/-- Python `str.strip()`: drop whitespace from both ends.  (Defined on the
character list so that it evaluates by kernel reduction.) -/
def pyStrip (s : String) : String :=
  String.mk (((s.data.dropWhile Char.isWhitespace).reverse.dropWhile Char.isWhitespace).reverse)

/-- Python `str.lower()` on ASCII text, character by character. -/
def pyLower (s : String) : String := String.mk (s.data.map Char.toLower)

/-- Python `str.startswith(pre)`. -/
def pyStartsWith (s pre : String) : Bool := pre.data.isPrefixOf s.data

/-- Membership in the reserved set, as a boolean. -/
def isSpecial (c : Char) : Bool := decide (c ∈ specialChars)

theorem isSpecial_iff (c : Char) : isSpecial c = true ↔ c ∈ specialChars := by
  simp [isSpecial]

/-- Auxiliary scan: every reserved character in the list is immediately
preceded by a backslash, given that `prev` is the character just before the
list. -/
def noUnescAux (prev : Char) : List Char → Bool
  | [] => true
  | c :: rest => ((!isSpecial c) || (prev == '\\')) && noUnescAux c rest

/-- Every reserved character occurring in the list is immediately preceded by
a backslash (in particular the list does not start with a reserved
character). -/
def noUnescaped : List Char → Bool
  | [] => true
  | c :: rest => (!isSpecial c) && noUnescAux c rest

/-! ### Media resolver and delivery client
(`get_best_media_url`, `send_telegram_message_with_media`)

The network is embedded as a pure oracle environment: `validate` is the
outcome of the HEAD probe `validate_media_url` for a given URL, and the
three send oracles are the acknowledgment of the corresponding Telegram
endpoint for given payloads (each primitive send in the source catches its
own exceptions and returns a boolean, never raising).  Every HTTP message
actually posted is recorded in an explicit trace of `Msg` values. -/

/-- A media descriptor attached to a tweet.  `type` models
`getattr(media_item, "type", "unknown")` (so an absent attribute is the
string `unknown`), and the four optional URL-bearing attributes model
`getattr(media_item, attr, None)`. -/
structure MediaItem where
  type : String
  url : Option String
  media_url_https : Option String
  media_url : Option String
  preview_image_url : Option String
deriving DecidableEq

/-- A message actually posted to the Telegram transport. -/
inductive Msg
  | photo (url caption : String)
  | video (url caption : String)
  | text (body : String)
deriving DecidableEq

/-- Outcomes of the external collaborators: the URL probe and the three send
endpoints. -/
structure Env where
  validate : String → Bool
  sendPhotoOk : String → String → Bool
  sendVideoOk : String → String → Bool
  sendTextOk : String → Bool

/-- Python truthiness of an optional string: both an absent attribute and an
empty string are falsy. -/
def truthy (o : Option String) : Option String :=
  match o with
  | none => none
  | some u => if u.isEmpty then none else some u

/-- The candidate-building loop of `get_best_media_url`: the four URL-bearing
attributes are consulted in the source's fixed order and only the truthy
ones contribute. -/
def buildCandidates (item : MediaItem) : List String :=
  [item.url, item.media_url_https, item.media_url, item.preview_image_url].filterMap truthy

/-- The probing loop of `get_best_media_url`: return the first candidate that
passes `validate_media_url`. -/
def firstValidUrl (validate : String → Bool) : List String → Option String
  | [] => none
  | u :: rest => if validate u then some u else firstValidUrl validate rest

/-- `get_best_media_url` from the source. -/
def get_best_media_url (validate : String → Bool) (item : MediaItem) : Option String :=
  firstValidUrl validate (buildCandidates item)

/-- `send_telegram_message` from the source: one POST to the text endpoint;
the result is the transport's acknowledgment, and the posted message is
traced. -/
def send_telegram_message (env : Env) (message : String) : Bool × List Msg :=
  (env.sendTextOk message, [Msg.text message])

/-- The media loop of `send_telegram_message_with_media`: items are tried in
order; an item without a primary `url` attribute is skipped, the URL is
probed, photo/image items go to the photo endpoint, video/animated_gif items
to the video endpoint, other types are skipped; the loop stops at the first
acknowledged send.  Returns the trace of media messages posted and whether
some send succeeded. -/
def mediaAttempts (env : Env) (message : String) : List MediaItem → List Msg × Bool
  | [] => ([], false)
  | item :: rest =>
    match truthy item.url with
    | none => mediaAttempts env message rest
    | some u =>
      if env.validate u then
        if pyLower item.type = "photo" ∨ pyLower item.type = "image" then
          if env.sendPhotoOk u message then ([Msg.photo u message], true)
          else
            let r := mediaAttempts env message rest
            (Msg.photo u message :: r.1, r.2)
        else if pyLower item.type = "video" ∨ pyLower item.type = "animated_gif" then
          if env.sendVideoOk u message then ([Msg.video u message], true)
          else
            let r := mediaAttempts env message rest
            (Msg.video u message :: r.1, r.2)
        else mediaAttempts env message rest
      else mediaAttempts env message rest

/-- The text fallback of `send_telegram_message_with_media`: one escaped
hyperlink line per media item that carries a primary `url` attribute
(labelled by its raw `type`), appended to the original message when at least
one such line exists. -/
def fallbackMessage (message : String) (items : List MediaItem) : String :=
  let mediaLinks := items.filterMap
    (fun item => (truthy item.url).map
      (fun u => ("  \\- ") ++ create_safe_url_link u item.type))
  if mediaLinks.isEmpty then message
  else message ++ ("\n\n*Media*:\n") ++ String.intercalate ("\n") mediaLinks

/-- `send_telegram_message_with_media` from the source: a falsy media
collection (absent or empty) delegates to the plain text send; otherwise the
media loop runs and, if no item is delivered, the text fallback with media
links is sent and its result returned. -/
def send_telegram_message_with_media (env : Env) (message : String)
    (mediaItems : Option (List MediaItem)) : Bool × List Msg :=
  match mediaItems with
  | none => send_telegram_message env message
  | some items =>
    if items.isEmpty then send_telegram_message env message
    else
      let r := mediaAttempts env message items
      if r.2 then (true, r.1)
      else
        let fb := fallbackMessage message items
        (env.sendTextOk fb, r.1 ++ [Msg.text fb])

/-- Clearing the three secondary URL attributes of a media item; used to
state that the composite deliver operation never reads them. -/
def clearSecondary (item : MediaItem) : MediaItem :=
  { item with media_url_https := none, media_url := none, preview_image_url := none }

/-! ### Seen-set store
(`load_sent_tweets`, `save_sent_tweet`, `cleanup_old_sent_tweets`)

The in-memory Python `set` of identifier strings is embedded as a
duplicate-free `List String`; for `cleanup_old_sent_tweets` the list also
records the (arbitrary) iteration order the Python `set` presents to
`sorted`, which is exactly the information Python's stable sort consumes. -/

/-- What one attempt to read the backing store can yield: the file is absent,
or the reader obtained a list of lines; `ioError = true` means the read
loop then raised (so `ls` are the lines yielded before the failure),
`ioError = false` means `ls` is the whole file. -/
inductive ReadResult
  | absent
  | content (ls : List String) (ioError : Bool)
deriving DecidableEq

/-- `set.add` on the list embedding of a Python set. -/
def addId (l : List String) (id : String) : List String :=
  if id ∈ l then l else l ++ [id]

/-- `load_sent_tweets` from the source: start from the empty set, strip each
line obtained from the store and add it when non-empty; an absent store and
a read failure both leave whatever has been accumulated (the `except` block
only logs). -/
def load_sent_tweets : ReadResult → List String
  | ReadResult.absent => []
  | ReadResult.content ls _ =>
    ls.foldl (fun acc line => if (pyStrip line).isEmpty then acc else addId acc (pyStrip line)) []

/-- `str.isdigit` of the source's sort key, on ASCII identifiers. -/
def pyIsDigit (s : String) : Bool :=
  (!s.data.isEmpty) && s.data.all Char.isDigit

/-- `int(x)` on a digit string: the base-10 value. -/
def pyIntNat (s : String) : Nat :=
  s.data.foldl (fun a c => a * 10 + (c.toNat - 48)) 0

/-- The sort key `int(x) if x.isdigit() else 0` of `cleanup_old_sent_tweets`. -/
def sortKey (s : String) : Nat :=
  if pyIsDigit s then pyIntNat s else 0

/-- Comparison by sort key; Python's stable `sorted(..., key=...)` is embedded
as `List.insertionSort` by this relation, which is likewise a stable sort. -/
def keyLe (a b : String) : Prop := sortKey a ≤ sortKey b

instance : DecidableRel keyLe :=
  fun a b => inferInstanceAs (Decidable (sortKey a ≤ sortKey b))

instance : IsTotal String keyLe := ⟨fun a b => Nat.le_total (sortKey a) (sortKey b)⟩

instance : IsTrans String keyLe := ⟨fun _ _ _ h h' => Nat.le_trans h h'⟩

/-- `cleanup_old_sent_tweets` from the source: when the set holds more than
10000 identifiers, sort them by numeric value (non-digit identifiers keyed
as 0), keep the last 8000 and rewrite the backing store; otherwise return
the set untouched.  The boolean records whether the backing store was
rewritten. -/
def cleanup_old_sent_tweets (sentTweets : List String) : List String × Bool :=
  if 10000 < sentTweets.length then
    ((List.insertionSort keyLe sentTweets).drop
      ((List.insertionSort keyLe sentTweets).length - 8000), true)
  else (sentTweets, false)

/-! ### Cycle engine (`perform_scraping_cycle`)

The lazy search stream is embedded as a list of events: each event is
either a yielded tweet or the point at which the iterator raises.  The
configured transport credentials are the source literals; the per-cycle
state records the counters of the source plus the externally visible
effects (lines appended to the backing file by `save_sent_tweet`, messages
posted, 10-second pauses performed). -/

def TELEGRAM_BOT_TOKEN : String := "YOUR_BOT_TOKEN_HERE"

def TELEGRAM_CHAT_ID : String := "YOUR_CHAT_ID_HERE"

/-- The fields of a tweet record that the cycle reads. -/
structure Post where
  id : Nat
  username : String
  displayname : String
  rawContent : String
  likeCount : Nat
  retweetCount : Nat
  replyCount : Nat
  date : String
  media : List MediaItem
deriving DecidableEq

/-- One step of the search stream: a yielded tweet, or the iterator raising
(caught by the cycle's `except`). -/
inductive Event
  | tweet (p : Post)
  | fault
deriving DecidableEq

/-- Per-cycle state: the source's counters plus the visible effects. -/
structure CycleState where
  seen : List String
  fileAppends : List String
  tweetCount : Nat
  newSent : Nat
  duplicatesSkipped : Nat
  sleeps : Nat
  msgs : List Msg
deriving DecidableEq

/-- The Telegram caption built for a tweet, translated literally from the
source's f-string (including its escaped parentheses and backquotes). -/
def buildMessage (p : Post) : String :=
  let contentDisplay :=
    if !p.rawContent.isEmpty then
      if pyStartsWith (pyStrip p.rawContent) ("http://")
          || pyStartsWith (pyStrip p.rawContent) ("https://") then
        create_safe_url_link (pyStrip p.rawContent) ("Tweet Link")
      else escape_markdown_v2 p.rawContent
    else "*No text content*"
  let tweetUrl :=
    ("https://twitter.com/") ++ p.username ++ ("/status/") ++ toString p.id
  let tweetLink := create_safe_url_link tweetUrl ("View on X")
  ("*VIRAL TWEET ALERT*\n\n*Author*: @")
    ++ escape_markdown_v2 p.username
    ++ (" \\(") ++ escape_markdown_v2 p.displayname
    ++ ("\\)\n*Tweet ID*: `") ++ escape_markdown_v2 (toString p.id)
    ++ ("`\n*Likes*: `") ++ escape_markdown_v2 (toString p.likeCount)
    ++ ("`\n*Retweets*: `") ++ escape_markdown_v2 (toString p.retweetCount)
    ++ ("`\n*Replies*: `") ++ escape_markdown_v2 (toString p.replyCount)
    ++ ("`\n*Date*: `") ++ escape_markdown_v2 p.date
    ++ ("`\n\n*Content*:\n") ++ contentDisplay
    ++ ("\n\n") ++ tweetLink

/-- `media_items` as passed to the deliver call: `None` when `tweet.media` is
falsy, the item list otherwise.  (The source's per-item diagnostic loop over
`get_best_media_url` only prints and has no further effect.) -/
def mediaOf (p : Post) : Option (List MediaItem) :=
  if p.media.isEmpty then none else some p.media

/-- The body of the cycle's `async for` loop for one yielded tweet: count it;
skip it as a duplicate when its identifier is in the seen set; otherwise,
with the transport configured, deliver it, and on success add the identifier
to the set, append it to the backing file (`save_sent_tweet`) and bump the
sent counter; in both outcomes pause 10 seconds. -/
def processEvent (env : Env) (st : CycleState) (p : Post) : CycleState :=
  let st1 : CycleState := { st with tweetCount := st.tweetCount + 1 }
  let idStr := toString p.id
  if idStr ∈ st1.seen then
    { st1 with duplicatesSkipped := st1.duplicatesSkipped + 1 }
  else if !TELEGRAM_BOT_TOKEN.isEmpty && !TELEGRAM_CHAT_ID.isEmpty then
    let r := send_telegram_message_with_media env (buildMessage p) (mediaOf p)
    let st2 : CycleState := { st1 with msgs := st1.msgs ++ r.2 }
    let st3 : CycleState :=
      if r.1 then
        { st2 with
          seen := addId st2.seen idStr
          fileAppends := st2.fileAppends ++ [idStr]
          newSent := st2.newSent + 1 }
      else st2
    { st3 with sleeps := st3.sleeps + 1 }
  else st1

/-- The per-post outcome for a fresh (not-yet-seen) identifier, as described
by the (amended) specification: on delivery success the identifier is added
to the in-memory set and appended to the backing file and the sent counter
is bumped; on failure nothing is recorded and no counter changes; in both
outcomes the messages of the delivery attempt are traced and one 10-second
pause is performed. -/
def processedFreshPost (env : Env) (st : CycleState) (p : Post) : CycleState :=
  if (send_telegram_message_with_media env (buildMessage p) (mediaOf p)).1 then
    { st with
      tweetCount := st.tweetCount + 1
      msgs := st.msgs ++ (send_telegram_message_with_media env (buildMessage p) (mediaOf p)).2
      seen := addId st.seen (toString p.id)
      fileAppends := st.fileAppends ++ [toString p.id]
      newSent := st.newSent + 1
      sleeps := st.sleeps + 1 }
  else
    { st with
      tweetCount := st.tweetCount + 1
      msgs := st.msgs ++ (send_telegram_message_with_media env (buildMessage p) (mediaOf p)).2
      sleeps := st.sleeps + 1 }

/-- Iterating the stream: a yielded tweet is processed, the iterator raising
ends the iteration with the state accumulated so far (the cycle's `except`
only logs). -/
def runCycleFrom (env : Env) : List Event → CycleState → CycleState
  | [], st => st
  | Event.tweet p :: rest, st => runCycleFrom env rest (processEvent env st p)
  | Event.fault :: _, st => st

/-- The counters all start at zero; the seen set is the one passed in. -/
def initState (seen0 : List String) : CycleState :=
  { seen := seen0, fileAppends := [], tweetCount := 0, newSent := 0,
    duplicatesSkipped := 0, sleeps := 0, msgs := [] }

/-- `perform_scraping_cycle` from the source, as a function of the stream the
search collaborator yields.  The source returns `new_tweets_sent`, read off
the final state as `.newSent`. -/
def perform_scraping_cycle (env : Env) (seen0 : List String)
    (events : List Event) : CycleState :=
  runCycleFrom env events (initState seen0)

/-! ### Concrete fixtures used by counterexamples and witnesses -/

/-- The all-zero digit identifier of length `n + 1` (numeric value 0). -/
def zeroId (n : Nat) : String := String.mk (List.replicate (n + 1) '0')

/-- A non-numeric identifier: `n` repetitions of the letter a. -/
def badId (n : Nat) : String := String.mk (List.replicate n 'a')

/-- A seen set of 10001 distinct identifiers, listed in an iteration order the
Python set may present: 2001 numeric identifiers of value 0 followed by 8000
non-numeric ones. -/
def ceList : List String :=
  (List.range 2001).map zeroId ++ (List.range 8000).map badId

/-- An environment in which every probe and every send succeeds. -/
def okEnv : Env :=
  { validate := fun _ => true, sendPhotoOk := fun _ _ => true,
    sendVideoOk := fun _ _ => true, sendTextOk := fun _ => true }

/-- An environment in which every probe succeeds but every send fails. -/
def failEnv : Env :=
  { validate := fun _ => true, sendPhotoOk := fun _ _ => false,
    sendVideoOk := fun _ _ => false, sendTextOk := fun _ => false }

/-- A media item carrying no primary url but a reachable HTTPS-media url. -/
def ceItem : MediaItem :=
  { type := "photo", url := none,
    media_url_https := some ("https://m.example/u.jpg"),
    media_url := none, preview_image_url := none }

/-- A photo item whose primary url is the first example url. -/
def itemW1 : MediaItem :=
  { type := "photo", url := some ("https://a.example/1.jpg"),
    media_url_https := none, media_url := none, preview_image_url := none }

/-- A photo item whose primary url is the second example url. -/
def itemW2 : MediaItem :=
  { type := "photo", url := some ("https://a.example/2.jpg"),
    media_url_https := none, media_url := none, preview_image_url := none }

/-- An environment in which only the second example url passes probing and
every send succeeds. -/
def envW : Env :=
  { validate := fun u => u == ("https://a.example/2.jpg"),
    sendPhotoOk := fun _ _ => true,
    sendVideoOk := fun _ _ => true, sendTextOk := fun _ => true }

/-- A concrete media-free tweet used by witnesses and counterexamples. -/
def pA : Post :=
  { id := 7, username := "alice", displayname := "Alice",
    rawContent := "hi there", likeCount := 6000, retweetCount := 10,
    replyCount := 3, date := "2024-06-02", media := [] }

/-- A second concrete tweet, used where a distinct identifier is needed. -/
def pB : Post :=
  { id := 5, username := "bob", displayname := "Bob",
    rawContent := "", likeCount := 7000, retweetCount := 20,
    replyCount := 4, date := "2024-06-02", media := [] }

theorem expand_append (f : Char → List Char) (a b : List Char) :
    expand f (a ++ b) = expand f a ++ expand f b := by
  induction a with
  | nil => rfl
  | cons x xs ih => simp [expand, ih]

theorem expand_expand (f g : Char → List Char) (l : List Char) :
    expand g (expand f l) = expand (fun x => expand g (f x)) l := by
  induction l with
  | nil => rfl
  | cons x xs ih => simp [expand, expand_append, ih]

theorem expand_congr {f g : Char → List Char} (h : ∀ x, f x = g x) (l : List Char) :
    expand f l = expand g l := by
  induction l with
  | nil => rfl
  | cons x xs ih => simp [expand, h, ih]

theorem expand_id (l : List Char) : expand (fun x => [x]) l = l := by
  induction l with
  | nil => rfl
  | cons x xs ih => simp [expand, ih]

/-- The sequential single-character replaces over a duplicate-free list of
needles (none of them a backslash) amount to a single simultaneous
expansion. -/
theorem foldl_escListStep (cs : List Char) (hnd : cs.Nodup) (hb : '\\' ∉ cs) :
    ∀ l : List Char,
      cs.foldl escListStep l = expand (fun x => if x ∈ cs then ['\\', x] else [x]) l := by
  induction cs with
  | nil =>
    intro l
    simp only [List.foldl_nil, List.not_mem_nil, if_false]
    exact (expand_id l).symm
  | cons c cs ih =>
    intro l
    have hcd : c ∉ cs := (List.nodup_cons.mp hnd).1
    have hnd' : cs.Nodup := (List.nodup_cons.mp hnd).2
    have hb' : '\\' ∉ cs := fun h => hb (List.mem_cons_of_mem _ h)
    have hbc : '\\' ≠ c := fun h => hb (h ▸ List.mem_cons_self c cs)
    rw [List.foldl_cons, ih hnd' hb', escListStep, expand_expand]
    refine expand_congr (fun x => ?_) l
    by_cases hx : x = c
    · subst hx
      simp only [if_pos rfl, List.mem_cons, true_or, if_pos]
      simp [expand, hb', hcd]
    · simp only [if_neg hx, expand, List.append_nil]
      by_cases hxcs : x ∈ cs
      · simp [List.mem_cons, hxcs, hx]
      · have : x ∉ (c :: cs) := by
          simp [List.mem_cons, hx, hxcs]
        simp [hxcs, this]

theorem data_mk (l : List Char) : (String.mk l).data = l := rfl

set_option maxHeartbeats 1000000 in
theorem specialChars_nodup : specialChars.Nodup := by decide

set_option maxHeartbeats 1000000 in
theorem backslash_not_special : '\\' ∉ specialChars := by decide

set_option maxHeartbeats 1000000 in
/-- `escape_markdown_v2` equals one simultaneous expansion over the reserved
set. -/
theorem escape_eq_expand (s : String) :
    (escape_markdown_v2 s).data
      = expand (fun x => if x ∈ specialChars then ['\\', x] else [x]) s.data := by
  rw [escape_markdown_v2]
  by_cases h : s.isEmpty
  · have hs : s = "" := (String.isEmpty_iff s).mp h
    subst hs
    simp [h, expand]
  · rw [if_neg h, data_mk]
    exact foldl_escListStep specialChars specialChars_nodup backslash_not_special s.data

theorem noUnescAux_expand (l : List Char) :
    ∀ prev : Char,
      noUnescAux prev (expand (fun x => if x ∈ specialChars then ['\\', x] else [x]) l) = true := by
  induction l with
  | nil => intro prev; rfl
  | cons x xs ih =>
    intro prev
    by_cases hx : x ∈ specialChars
    · have hxs : isSpecial x = true := by
        exact (isSpecial_iff x).mpr hx
      simp only [expand, if_pos hx, List.cons_append, noUnescAux]
      have hbs : isSpecial '\\' = false := by decide
      simp [hbs, hxs, ih x]
    · have hxs : isSpecial x = false := by
        simp [isSpecial, hx]
      simp only [expand, if_neg hx, List.cons_append, List.nil_append, noUnescAux]
      simp [hxs, ih x]

theorem noUnescaped_expand (l : List Char) :
    noUnescaped (expand (fun x => if x ∈ specialChars then ['\\', x] else [x]) l) = true := by
  cases l with
  | nil => rfl
  | cons x xs =>
    by_cases hx : x ∈ specialChars
    · have hbs : isSpecial '\\' = false := by decide
      have hxs : isSpecial x = true := by
        exact (isSpecial_iff x).mpr hx
      simp only [expand, if_pos hx, List.cons_append, noUnescaped]
      simp [hbs, noUnescAux, hxs, noUnescAux_expand xs x]
    · have hxs : isSpecial x = false := by
        simp [isSpecial, hx]
      simp only [expand, if_neg hx, List.cons_append, List.nil_append, noUnescaped]
      simp [hxs, noUnescAux_expand xs x]

theorem sublist_expand (l : List Char) :
    l.Sublist (expand (fun x => if x ∈ specialChars then ['\\', x] else [x]) l) := by
  induction l with
  | nil => exact List.Sublist.refl []
  | cons x xs ih =>
    by_cases hx : x ∈ specialChars
    · simp only [expand, if_pos hx, List.cons_append]
      exact List.Sublist.cons '\\' (List.Sublist.cons₂ x ih)
    · simp only [expand, if_neg hx, List.cons_append, List.nil_append]
      exact List.Sublist.cons₂ x ih

/-- C4: `escape_markdown_v2` neutralizes every reserved character — in its
output every occurrence of a reserved character is immediately preceded by a
backslash; empty input yields the empty string without faulting; and the
input embeds into the output as a sublist, so escaping an
already-partially-escaped string never removes existing escape markers
(escape never under-escapes). -/
theorem escape_markdown_v2_correct :
    escape_markdown_v2 (String.mk []) = String.mk []
      ∧ (∀ s : String, noUnescaped (escape_markdown_v2 s).data = true)
      ∧ (∀ s : String, s.data.Sublist (escape_markdown_v2 s).data) := by
  refine ⟨rfl, fun s => ?_, fun s => ?_⟩
  · rw [escape_eq_expand]
    exact noUnescaped_expand s.data
  · rw [escape_eq_expand]
    exact sublist_expand s.data

/-! ### Seen-set store: load and compaction bound (C9, C10) -/

theorem mem_addId (l : List String) (y x : String) :
    x ∈ addId l y ↔ x ∈ l ∨ x = y := by
  unfold addId
  by_cases h : y ∈ l
  · rw [if_pos h]
    constructor
    · exact fun hx => Or.inl hx
    · rintro (hx | rfl)
      · exact hx
      · exact h
  · rw [if_neg h]
    simp [List.mem_append]

theorem load_foldl_mem (ls : List String) :
    ∀ (acc : List String) (x : String),
      x ∈ ls.foldl
          (fun acc line => if (pyStrip line).isEmpty then acc else addId acc (pyStrip line)) acc
        ↔ x ∈ acc ∨ ∃ line ∈ ls, pyStrip line = x ∧ x ≠ "" := by
  induction ls with
  | nil => intro acc x; simp
  | cons line ls ih =>
    intro acc x
    rw [List.foldl_cons, ih]
    by_cases h : (pyStrip line).isEmpty
    · have hline : pyStrip line = "" := (String.isEmpty_iff (pyStrip line)).mp h
      rw [if_pos h]
      constructor
      · rintro (hx | hx)
        · exact Or.inl hx
        · exact Or.inr (by
            obtain ⟨w, hw, hwx⟩ := hx
            exact ⟨w, List.mem_cons_of_mem _ hw, hwx⟩)
      · rintro (hx | ⟨w, hw, hwt, hwne⟩)
        · exact Or.inl hx
        · rcases List.mem_cons.mp hw with rfl | hw
          · exact absurd (hline.symm.trans hwt).symm hwne
          · exact Or.inr ⟨w, hw, hwt, hwne⟩
    · have hline : pyStrip line ≠ "" := fun he => h ((String.isEmpty_iff (pyStrip line)).mpr he)
      rw [if_neg h]
      constructor
      · rintro (hx | hx)
        · rcases (mem_addId acc (pyStrip line) x).mp hx with hx | rfl
          · exact Or.inl hx
          · exact Or.inr ⟨line, List.mem_cons_self _ _, rfl, hline⟩
        · obtain ⟨w, hw, hwx⟩ := hx
          exact Or.inr ⟨w, List.mem_cons_of_mem _ hw, hwx⟩
      · rintro (hx | ⟨w, hw, hwt, hwne⟩)
        · exact Or.inl ((mem_addId acc (pyStrip line) x).mpr (Or.inl hx))
        · rcases List.mem_cons.mp hw with heq | hw
          · exact Or.inl ((mem_addId acc (pyStrip line) x).mpr (Or.inr (heq ▸ hwt).symm))
          · exact Or.inr ⟨w, hw, hwt, hwne⟩

/-- C9 (amended): `load_sent_tweets` on an absent store yields the empty set;
on a store read it yields exactly the stripped forms of the non-blank lines
obtained before any failure, and a read that fails after yielding some lines
keeps those lines (it does not yield an empty set); it never raises. -/
theorem load_sent_tweets_characterization :
    load_sent_tweets ReadResult.absent = []
      ∧ (∀ (ls : List String) (e : Bool) (x : String),
          x ∈ load_sent_tweets (ReadResult.content ls e)
            ↔ ∃ line ∈ ls, pyStrip line = x ∧ x ≠ "")
      ∧ (∀ (ls : List String),
          load_sent_tweets (ReadResult.content ls true)
            = load_sent_tweets (ReadResult.content ls false)) := by
  refine ⟨rfl, fun ls e x => ?_, fun ls => rfl⟩
  rw [load_sent_tweets, load_foldl_mem]
  simp

/-- C9 counterexample: a load that fails with an I/O error after one line was
read yields that line's identifier, not the empty set; and even a clean load
returns the stripped line, not the raw non-empty line. -/
theorem load_partial_counterexample :
    load_sent_tweets (ReadResult.content [(" 123 ")] true) = [("123")]
      ∧ (("123") : String) ≠ ""
      ∧ load_sent_tweets (ReadResult.content [(" 123 ")] false) ≠ [(" 123 ")] := by
  refine ⟨by decide, by decide, by decide⟩

/-- C10: a seen set of at most 10000 identifiers is returned unchanged by
`cleanup_old_sent_tweets` and the backing store is not rewritten (the
boolean component records a rewrite). -/
theorem cleanup_small_identity (l : List String) (h : l.length ≤ 10000) :
    cleanup_old_sent_tweets l = (l, false) := by
  unfold cleanup_old_sent_tweets
  rw [if_neg (by omega)]

theorem cleanup_small_identity_witness :
    ([("111"), ("222")] : List String).length ≤ 10000
      ∧ cleanup_old_sent_tweets [("111"), ("222")] = ([("111"), ("222")], false) :=
  ⟨by decide, cleanup_small_identity [("111"), ("222")] (by decide)⟩

/-! ### Cycle engine: fault containment (C8) -/

theorem runCycleFrom_fault (env : Env) (pre rest : List Event) :
    ∀ st : CycleState,
      runCycleFrom env (pre ++ Event.fault :: rest) st = runCycleFrom env pre st := by
  induction pre with
  | nil => intro st; rfl
  | cons e pre ih =>
    intro st
    cases e with
    | tweet p => rw [List.cons_append, runCycleFrom, runCycleFrom]; exact ih _
    | fault => rfl

/-- C8: a fault raised while iterating the post stream ends only the
remaining iteration of the cycle: the cycle's result equals the result of
processing the prefix before the fault, so already-processed posts stand and
the accumulated counters (in particular `newSent`) are returned instead of an
exception escaping the cycle. -/
theorem cycle_fault_returns_prefix_results (env : Env) (seen0 : List String)
    (pre rest : List Event) :
    perform_scraping_cycle env seen0 (pre ++ Event.fault :: rest)
      = perform_scraping_cycle env seen0 pre :=
  runCycleFrom_fault env pre rest (initState seen0)

/-! ### Cycle engine: per-post dedup and delivery effects (C1, C2, C7) -/

theorem telegram_configured :
    (!TELEGRAM_BOT_TOKEN.isEmpty && !TELEGRAM_CHAT_ID.isEmpty) = true := by decide

theorem processEvent_mem_seen (env : Env) (st : CycleState) (p : Post)
    (h : toString p.id ∈ st.seen) :
    processEvent env st p
      = { st with tweetCount := st.tweetCount + 1,
                  duplicatesSkipped := st.duplicatesSkipped + 1 } := by
  simp only [processEvent]
  rw [if_pos h]

theorem processEvent_not_seen (env : Env) (st : CycleState) (p : Post)
    (h : toString p.id ∉ st.seen) :
    processEvent env st p = processedFreshPost env st p := by
  simp only [processEvent, processedFreshPost]
  rw [if_neg h, if_pos telegram_configured]
  by_cases hs : (send_telegram_message_with_media env (buildMessage p) (mediaOf p)).1
  · rw [if_pos hs, if_pos hs]
  · rw [if_neg hs, if_neg hs]

theorem mediaAttempts_pos_ne_nil (env : Env) (message : String) :
    ∀ items : List MediaItem,
      (mediaAttempts env message items).2 = true
        → (mediaAttempts env message items).1 ≠ [] := by
  intro items
  induction items with
  | nil => intro h; simp [mediaAttempts] at h
  | cons item rest ih =>
    intro h
    simp only [mediaAttempts] at h ⊢
    cases htu : truthy item.url with
    | none =>
      simp only [htu] at h ⊢
      exact ih h
    | some u =>
      simp only [htu] at h ⊢
      by_cases hv : env.validate u
      · simp only [if_pos hv] at h ⊢
        by_cases hp : pyLower item.type = "photo" ∨ pyLower item.type = "image"
        · simp only [if_pos hp] at h ⊢
          by_cases hok : env.sendPhotoOk u message
          · simp only [if_pos hok] at h ⊢
            simp
          · simp only [if_neg hok] at h ⊢
            simp
        · simp only [if_neg hp] at h ⊢
          by_cases hq : pyLower item.type = "video" ∨ pyLower item.type = "animated_gif"
          · simp only [if_pos hq] at h ⊢
            by_cases hok : env.sendVideoOk u message
            · simp only [if_pos hok] at h ⊢
              simp
            · simp only [if_neg hok] at h ⊢
              simp
          · simp only [if_neg hq] at h ⊢
            exact ih h
      · simp only [if_neg hv] at h ⊢
        exact ih h

theorem deliver_trace_ne_nil (env : Env) (message : String) :
    ∀ mi : Option (List MediaItem),
      (send_telegram_message_with_media env message mi).2 ≠ [] := by
  intro mi
  cases mi with
  | none => simp [send_telegram_message_with_media, send_telegram_message]
  | some items =>
    simp only [send_telegram_message_with_media]
    by_cases he : items.isEmpty
    · simp [he, send_telegram_message]
    · simp only [if_neg he]
      by_cases hr : (mediaAttempts env message items).2
      · simp only [if_pos hr]
        exact mediaAttempts_pos_ne_nil env message items hr
      · simp only [if_neg hr]
        simp

/-- C1: for a post examined in a cycle whose identifier is not yet in the
seen set, the identifier ends up in the in-memory seen set if and only if the
delivery call for that post returned success, and the line appended to the
backing file (`save_sent_tweet`) is written exactly in that case — on
delivery failure the identifier is recorded nowhere. -/
theorem seen_add_iff_delivery_success (env : Env) (st : CycleState) (p : Post)
    (h : toString p.id ∉ st.seen) :
    ((toString p.id ∈ (processEvent env st p).seen)
        ↔ (send_telegram_message_with_media env (buildMessage p) (mediaOf p)).1 = true)
      ∧ ((processEvent env st p).fileAppends
          = if (send_telegram_message_with_media env (buildMessage p) (mediaOf p)).1
            then st.fileAppends ++ [toString p.id] else st.fileAppends) := by
  rw [processEvent_not_seen env st p h]
  unfold processedFreshPost
  by_cases hs : (send_telegram_message_with_media env (buildMessage p) (mediaOf p)).1
  · rw [if_pos hs, if_pos hs]
    refine ⟨⟨fun _ => hs, fun _ => ?_⟩, rfl⟩
    exact (mem_addId st.seen (toString p.id) (toString p.id)).mpr (Or.inr rfl)
  · rw [if_neg hs, if_neg hs]
    refine ⟨⟨fun hm => absurd hm h, fun hs2 => absurd hs2 hs⟩, rfl⟩

theorem seen_add_iff_delivery_success_witness :
    toString pA.id ∉ (initState []).seen
      ∧ (((toString pA.id ∈ (processEvent okEnv (initState []) pA).seen)
            ↔ (send_telegram_message_with_media okEnv (buildMessage pA) (mediaOf pA)).1 = true)
          ∧ ((processEvent okEnv (initState []) pA).fileAppends
              = if (send_telegram_message_with_media okEnv (buildMessage pA) (mediaOf pA)).1
                then (initState []).fileAppends ++ [toString pA.id]
                else (initState []).fileAppends)) :=
  ⟨by decide, seen_add_iff_delivery_success okEnv (initState []) pA (by decide)⟩

/-- C2: a post whose identifier is already in the seen set when examined is
counted as a duplicate and nothing else happens (no send, no store write, no
sent-counter change, no pause); a post whose identifier is absent has
delivery attempted — the cycle's message trace grows by the delivery call's
(never empty) messages. -/
theorem duplicate_skip_and_delivery_attempt (env : Env) (st : CycleState) (p : Post) :
    ((toString p.id ∈ st.seen)
        → processEvent env st p
            = { st with tweetCount := st.tweetCount + 1,
                        duplicatesSkipped := st.duplicatesSkipped + 1 })
      ∧ ((toString p.id ∉ st.seen)
          → (processEvent env st p).msgs
                = st.msgs
                  ++ (send_telegram_message_with_media env (buildMessage p) (mediaOf p)).2
              ∧ (send_telegram_message_with_media env (buildMessage p) (mediaOf p)).2 ≠ []) := by
  constructor
  · intro h
    exact processEvent_mem_seen env st p h
  · intro h
    constructor
    · rw [processEvent_not_seen env st p h]
      unfold processedFreshPost
      by_cases hs : (send_telegram_message_with_media env (buildMessage p) (mediaOf p)).1
      · rw [if_pos hs]
      · rw [if_neg hs]
    · exact deliver_trace_ne_nil env (buildMessage p) (mediaOf p)

theorem duplicate_skip_and_delivery_attempt_witness :
    (toString pB.id ∈ [toString pB.id])
      ∧ processEvent okEnv { initState [toString pB.id] with tweetCount := 3 } pB
          = { initState [toString pB.id] with tweetCount := 4, duplicatesSkipped := 1 }
      ∧ (toString pA.id ∉ (initState []).seen)
      ∧ (processEvent okEnv (initState []) pA).msgs
          = (initState []).msgs
            ++ (send_telegram_message_with_media okEnv (buildMessage pA) (mediaOf pA)).2 := by
  refine ⟨by decide, ?_, by decide, ?_⟩
  · exact (duplicate_skip_and_delivery_attempt okEnv
      { initState [toString pB.id] with tweetCount := 3 } pB).1 (by decide)
  · exact ((duplicate_skip_and_delivery_attempt okEnv (initState []) pA).2 (by decide)).1

/-- C7 (amended): after a successful delivery the engine records the
identifier (set and file), increments the sent counter and pauses the fixed
10-second delay; after a failed delivery it records nothing and changes no
counter, but — contrary to the original claim — it still pauses the fixed
delay before continuing to the next post. -/
theorem delivery_effects_and_pause (env : Env) (st : CycleState) (p : Post)
    (h : toString p.id ∉ st.seen) :
    processEvent env st p = processedFreshPost env st p :=
  processEvent_not_seen env st p h

theorem delivery_effects_and_pause_witness :
    toString pA.id ∉ (initState []).seen
      ∧ processEvent okEnv (initState []) pA = processedFreshPost okEnv (initState []) pA :=
  ⟨by decide, delivery_effects_and_pause okEnv (initState []) pA (by decide)⟩

/-- C7 counterexample: with the transport refusing every send, a cycle over a
single fresh post fails its delivery (nothing recorded, nothing counted as
sent, exactly one message attempted) and nevertheless performs one 10-second
pause, contradicting the claim that a failed delivery performs no pause. -/
theorem pause_after_failure_counterexample :
    (perform_scraping_cycle failEnv [] [Event.tweet pA]).newSent = 0
      ∧ (perform_scraping_cycle failEnv [] [Event.tweet pA]).fileAppends = []
      ∧ (perform_scraping_cycle failEnv [] [Event.tweet pA]).seen = []
      ∧ (perform_scraping_cycle failEnv [] [Event.tweet pA]).msgs.length = 1
      ∧ (perform_scraping_cycle failEnv [] [Event.tweet pA]).sleeps = 1 :=
  ⟨rfl, rfl, rfl, rfl, rfl⟩

/-! ### Delivery client: media fallback scenarios (C5) and the resolver (C6) -/

theorem mediaAttempts_all_fail (env : Env) (message : String) :
    ∀ items : List MediaItem,
      (∀ i ∈ items, ∃ u, truthy i.url = some u ∧ env.validate u = false)
        → mediaAttempts env message items = ([], false) := by
  intro items
  induction items with
  | nil => intro _; rfl
  | cons item rest ih =>
    intro hall
    obtain ⟨u, hu, hv⟩ := hall item (List.mem_cons_self _ _)
    simp only [mediaAttempts, hu, hv]
    simp only [Bool.false_eq_true, if_false]
    exact ih (fun i hi => hall i (List.mem_cons_of_mem _ hi))

theorem fallback_links_length :
    ∀ items : List MediaItem,
      (∀ i ∈ items, ∃ u, truthy i.url = some u)
        → (items.filterMap (fun item => (truthy item.url).map
              (fun u => ("  \\- ") ++ create_safe_url_link u item.type))).length
            = items.length := by
  intro items
  induction items with
  | nil => intro _; rfl
  | cons item rest ih =>
    intro hall
    obtain ⟨u, hu⟩ := hall item (List.mem_cons_self _ _)
    rw [List.filterMap_cons]
    simp [hu, ih (fun i hi => hall i (List.mem_cons_of_mem _ hi))]

/-- C5: the two media-fallback scenarios of the specification.  First: for a
post with two media items where the first fails URL probing and the second
passes probing and is delivered by the photo endpoint, the composite deliver
sends exactly one media message (for the second item) and returns success.
Second: for a post all of whose media items fail probing, deliver sends
exactly one text message — the original caption plus one hyperlink line per
media item — and returns that text send's result. -/
theorem deliver_media_fallback_scenarios :
    (∀ (env : Env) (msg u1 u2 : String) (item1 item2 : MediaItem),
        truthy item1.url = some u1 → env.validate u1 = false →
        truthy item2.url = some u2 → env.validate u2 = true →
        pyLower item2.type = "photo" → env.sendPhotoOk u2 msg = true →
        send_telegram_message_with_media env msg (some [item1, item2])
          = (true, [Msg.photo u2 msg]))
      ∧ (∀ (env : Env) (msg : String) (items : List MediaItem),
          items ≠ [] →
          (∀ i ∈ items, ∃ u, truthy i.url = some u ∧ env.validate u = false) →
          send_telegram_message_with_media env msg (some items)
              = (env.sendTextOk (fallbackMessage msg items),
                 [Msg.text (fallbackMessage msg items)])
            ∧ (items.filterMap (fun item => (truthy item.url).map
                  (fun u => ("  \\- ") ++ create_safe_url_link u item.type))).length
                = items.length) := by
  constructor
  · intro env msg u1 u2 item1 item2 h1 h2 h3 h4 h5 h6
    have hatt : mediaAttempts env msg [item1, item2] = ([Msg.photo u2 msg], true) := by
      simp only [mediaAttempts, h1, h2, h3, h4, h5, h6]
      simp
    simp only [send_telegram_message_with_media, List.isEmpty_cons, hatt]
    simp
  · intro env msg items hne hall
    have hatt : mediaAttempts env msg items = ([], false) :=
      mediaAttempts_all_fail env msg items hall
    have hie : items.isEmpty = false := by
      cases items with
      | nil => exact absurd rfl hne
      | cons a l => rfl
    constructor
    · simp only [send_telegram_message_with_media, hie, hatt]
      simp
    · exact fallback_links_length items (fun i hi => ⟨(hall i hi).choose, (hall i hi).choose_spec.1⟩)

theorem deliver_media_fallback_scenarios_witness :
    truthy itemW1.url = some ("https://a.example/1.jpg")
      ∧ envW.validate ("https://a.example/1.jpg") = false
      ∧ truthy itemW2.url = some ("https://a.example/2.jpg")
      ∧ envW.validate ("https://a.example/2.jpg") = true
      ∧ pyLower itemW2.type = "photo"
      ∧ envW.sendPhotoOk ("https://a.example/2.jpg") ("cap") = true
      ∧ send_telegram_message_with_media envW ("cap") (some [itemW1, itemW2])
          = (true, [Msg.photo ("https://a.example/2.jpg") ("cap")])
      ∧ send_telegram_message_with_media envW ("cap") (some [itemW1])
          = (envW.sendTextOk (fallbackMessage ("cap") [itemW1]),
             [Msg.text (fallbackMessage ("cap") [itemW1])]) := by
  refine ⟨by decide, by decide, by decide, by decide, by decide, by decide, ?_, ?_⟩
  · exact deliver_media_fallback_scenarios.1 envW ("cap")
      ("https://a.example/1.jpg") ("https://a.example/2.jpg") itemW1 itemW2
      (by decide) (by decide) (by decide) (by decide) (by decide) (by decide)
  · refine (deliver_media_fallback_scenarios.2 envW ("cap") [itemW1] (by decide)
      (fun i hi => ?_)).1
    rw [List.mem_singleton] at hi
    subst hi
    exact ⟨("https://a.example/1.jpg"), by decide, by decide⟩

theorem firstValidUrl_eq_find (v : String → Bool) :
    ∀ l : List String, firstValidUrl v l = l.find? v := by
  intro l
  induction l with
  | nil => rfl
  | cons u rest ih =>
    rw [firstValidUrl, List.find?_cons]
    by_cases hv : v u
    · simp [hv]
    · simp [hv, ih]

theorem mediaAttempts_clearSecondary (env : Env) (message : String) :
    ∀ items : List MediaItem,
      mediaAttempts env message (items.map clearSecondary)
        = mediaAttempts env message items := by
  intro items
  induction items with
  | nil => rfl
  | cons item rest ih =>
    simp only [List.map_cons, mediaAttempts, clearSecondary]
    cases htu : truthy item.url with
    | none =>
      simp only [htu]
      exact ih
    | some u =>
      simp only [htu]
      by_cases hv : env.validate u
      · simp only [if_pos hv]
        by_cases hp : pyLower item.type = "photo" ∨ pyLower item.type = "image"
        · simp only [if_pos hp]
          by_cases hok : env.sendPhotoOk u message
          · simp [hok]
          · simp [hok, ih]
        · simp only [if_neg hp]
          by_cases hq : pyLower item.type = "video" ∨ pyLower item.type = "animated_gif"
          · simp only [if_pos hq]
            by_cases hok : env.sendVideoOk u message
            · simp [hok]
            · simp [hok, ih]
          · simp only [if_neg hq]
            exact ih
      · simp only [if_neg hv]
        exact ih

theorem fallbackMessage_clearSecondary (message : String) (items : List MediaItem) :
    fallbackMessage message (items.map clearSecondary) = fallbackMessage message items := by
  simp only [fallbackMessage, List.filterMap_map]
  rfl

/-- C6 (amended): `get_best_media_url` does implement the Media Resolver
contract — the candidate list is built from the four URL-bearing attributes
in fixed priority order and the first candidate passing the probe is
returned — but the composite deliver operation does not consult it: it reads
only each item's primary `url` attribute, so its outcome is unchanged when
the three secondary URL attributes are cleared. -/
theorem resolver_contract_and_deliver_frame :
    (∀ (v : String → Bool) (item : MediaItem),
        get_best_media_url v item
          = ([item.url, item.media_url_https, item.media_url,
              item.preview_image_url].filterMap truthy).find? v)
      ∧ (∀ (env : Env) (message : String) (items : List MediaItem),
          send_telegram_message_with_media env message (some (items.map clearSecondary))
            = send_telegram_message_with_media env message (some items)) := by
  constructor
  · intro v item
    rw [get_best_media_url, buildCandidates, firstValidUrl_eq_find]
  · intro env message items
    have he : (items.map clearSecondary).isEmpty = items.isEmpty := by
      cases items <;> rfl
    simp only [send_telegram_message_with_media, he,
      mediaAttempts_clearSecondary, fallbackMessage_clearSecondary]

/-- C6 counterexample: a media item with no primary url but a reachable
HTTPS-media url.  The Media Resolver (`get_best_media_url`) resolves a usable
URL for it, yet the composite deliver operation skips the item and sends only
the plain text fallback — no media message at all — so deliver does not
resolve URLs via the Media Resolver contract. -/
theorem deliver_ignores_resolver_counterexample :
    get_best_media_url okEnv.validate ceItem = some ("https://m.example/u.jpg")
      ∧ (send_telegram_message_with_media okEnv ("caption") (some [ceItem])).2
          = [Msg.text ("caption")] :=
  ⟨rfl, rfl⟩

/-! ### Compaction (C3) -/

theorem foldl_zeros : ∀ k : Nat,
    (List.replicate k '0').foldl (fun a c => a * 10 + (c.toNat - 48)) 0 = 0 := by
  intro k
  induction k with
  | zero => rfl
  | succ m ih =>
    rw [List.replicate_succ, List.foldl_cons]
    have h48 : (0 * 10 + ('0'.toNat - 48)) = 0 := by decide
    rw [h48]
    exact ih

theorem all_digit_replicate_zero : ∀ k : Nat,
    (List.replicate k '0').all Char.isDigit = true := by
  intro k
  induction k with
  | zero => rfl
  | succ m ih =>
    rw [List.replicate_succ, List.all_cons, ih]
    decide

theorem zeroId_digit (n : Nat) : pyIsDigit (zeroId n) = true := by
  unfold pyIsDigit zeroId
  rw [data_mk, List.replicate_succ, List.all_cons]
  have h0 : Char.isDigit '0' = true := by decide
  rw [h0, all_digit_replicate_zero n]
  rfl

theorem pyIntNat_zeroId (n : Nat) : pyIntNat (zeroId n) = 0 := by
  unfold pyIntNat zeroId
  rw [data_mk]
  exact foldl_zeros (n + 1)

theorem sortKey_zeroId (n : Nat) : sortKey (zeroId n) = 0 := by
  rw [sortKey, if_pos (zeroId_digit n), pyIntNat_zeroId]

theorem badId_not_digit (n : Nat) : pyIsDigit (badId n) = false := by
  cases n with
  | zero => rfl
  | succ m =>
    unfold pyIsDigit badId
    rw [data_mk, List.replicate_succ, List.all_cons]
    have ha : Char.isDigit 'a' = false := by decide
    rw [ha]
    simp

theorem sortKey_badId (n : Nat) : sortKey (badId n) = 0 := by
  rw [sortKey, if_neg]
  simp [badId_not_digit n]

theorem zeroId_ne_badId (n m : Nat) : zeroId n ≠ badId m := by
  intro h
  have hd := congrArg String.data h
  rw [zeroId, badId, data_mk, data_mk] at hd
  have hlen := congrArg List.length hd
  rw [List.length_replicate, List.length_replicate] at hlen
  subst hlen
  rw [List.replicate_succ, List.replicate_succ] at hd
  simp at hd

theorem zeroId_inj : Function.Injective zeroId := by
  intro a b h
  have hd := congrArg String.data h
  rw [zeroId, zeroId, data_mk, data_mk] at hd
  have hlen := congrArg List.length hd
  rw [List.length_replicate, List.length_replicate] at hlen
  omega

theorem badId_inj : Function.Injective badId := by
  intro a b h
  have hd := congrArg String.data h
  rw [badId, badId, data_mk, data_mk] at hd
  have hlen := congrArg List.length hd
  rw [List.length_replicate, List.length_replicate] at hlen
  exact hlen

theorem ceList_length : ceList.length = 10001 := by
  rw [ceList, List.length_append, List.length_map, List.length_map,
    List.length_range, List.length_range]

theorem ceList_nodup : ceList.Nodup := by
  rw [ceList]
  refine List.Nodup.append ?_ ?_ ?_
  · exact (List.nodup_range 2001).map zeroId_inj
  · exact (List.nodup_range 8000).map badId_inj
  · intro a ha hb
    obtain ⟨n, _, rfl⟩ := List.mem_map.mp ha
    obtain ⟨m, _, heq⟩ := List.mem_map.mp hb
    exact zeroId_ne_badId n m heq.symm

theorem ceList_key_zero : ∀ x ∈ ceList, sortKey x = 0 := by
  intro x hx
  rw [ceList, List.mem_append] at hx
  rcases hx with hx | hx
  · obtain ⟨n, _, rfl⟩ := List.mem_map.mp hx
    exact sortKey_zeroId n
  · obtain ⟨m, _, rfl⟩ := List.mem_map.mp hx
    exact sortKey_badId m

theorem sorted_of_key_zero :
    ∀ l : List String, (∀ x ∈ l, sortKey x = 0) → List.Sorted keyLe l := by
  intro l
  induction l with
  | nil => intro _; exact List.sorted_nil
  | cons a t ih =>
    intro h
    refine List.Pairwise.cons ?_ (ih fun x hx => h x (List.mem_cons_of_mem _ hx))
    intro b _
    show sortKey a ≤ sortKey b
    rw [h a (List.mem_cons_self _ _)]
    exact Nat.zero_le _

theorem cleanup_ceList :
    cleanup_old_sent_tweets ceList = ((List.range 8000).map badId, true) := by
  have hsorted : List.Sorted keyLe ceList := sorted_of_key_zero ceList ceList_key_zero
  rw [cleanup_old_sent_tweets]
  rw [if_pos (by rw [ceList_length]; norm_num)]
  rw [hsorted.insertionSort_eq, ceList_length]
  have hk : (10001 : Nat) - 8000 = 2001 := by norm_num
  rw [hk, ceList]
  rw [List.drop_left' (by rw [List.length_map, List.length_range])]

set_option maxRecDepth 100000 in
/-- C3 counterexample: a seen set of 10001 distinct identifiers — 2001
numeric ones of value 0 and 8000 non-numeric ones, in an iteration order the
Python set may present — on which compaction retains a non-numeric
identifier while excluding a numeric one, refuting the claim that every
non-numeric identifier is excluded before any numeric identifier is. -/
theorem compaction_nonnumeric_counterexample :
    10000 < ceList.length
      ∧ zeroId 0 ∈ ceList ∧ pyIsDigit (zeroId 0) = true
      ∧ badId 1 ∈ ceList ∧ pyIsDigit (badId 1) = false
      ∧ badId 1 ∈ (cleanup_old_sent_tweets ceList).1
      ∧ zeroId 0 ∉ (cleanup_old_sent_tweets ceList).1 := by
  refine ⟨by rw [ceList_length]; norm_num, ?_, by decide, ?_, by decide, ?_, ?_⟩
  · rw [ceList]
    exact List.mem_append_left _
      (List.mem_map.mpr ⟨0, List.mem_range.mpr (by norm_num), rfl⟩)
  · rw [ceList]
    exact List.mem_append_right _
      (List.mem_map.mpr ⟨1, List.mem_range.mpr (by norm_num), rfl⟩)
  · rw [cleanup_ceList]
    exact List.mem_map.mpr ⟨1, List.mem_range.mpr (by norm_num), rfl⟩
  · rw [cleanup_ceList]
    intro hmem
    obtain ⟨m, _, heq⟩ := List.mem_map.mp hmem
    exact zeroId_ne_badId 0 m heq.symm

theorem cleanup_unfold_large (l : List String) (hlen : 10000 < l.length) :
    (cleanup_old_sent_tweets l).1
      = (List.insertionSort keyLe l).drop ((List.insertionSort keyLe l).length - 8000) := by
  rw [cleanup_old_sent_tweets, if_pos hlen]

theorem cleanup_excluded_le (l : List String) (hlen : 10000 < l.length) :
    ∀ x ∈ (cleanup_old_sent_tweets l).1, ∀ y ∈ l,
      y ∉ (cleanup_old_sent_tweets l).1 → keyLe y x := by
  intro x hx y hy hyn
  rw [cleanup_unfold_large l hlen] at hx hyn
  have hs : List.Sorted keyLe (List.insertionSort keyLe l) :=
    List.sorted_insertionSort keyLe l
  have hys : y ∈ List.insertionSort keyLe l :=
    (List.perm_insertionSort keyLe l).mem_iff.mpr hy
  have hsplit := List.take_append_drop
    ((List.insertionSort keyLe l).length - 8000) (List.insertionSort keyLe l)
  rw [← hsplit] at hys hs
  rcases List.mem_append.mp hys with hyt | hyd
  · exact ((List.pairwise_append.mp hs).2.2) y hyt x hx
  · exact absurd hyd hyn

/-- C3 (amended): for every duplicate-free seen set of more than 10000
identifiers, compaction returns exactly 8000 entries, every numeric
identifier retained is numerically at least every numeric identifier
excluded, and a non-numeric identifier can be retained in preference to a
numeric one only when that numeric identifier has value 0 (non-numeric
identifiers are keyed as value 0, not strictly below every numeric
identifier, so they are excluded before any numeric identifier of positive
value but tie with value-0 numeric identifiers). -/
theorem compaction_bound_and_order (l : List String) (_hnd : l.Nodup)
    (hlen : 10000 < l.length) :
    ((cleanup_old_sent_tweets l).1.length = 8000)
      ∧ (∀ x ∈ (cleanup_old_sent_tweets l).1, ∀ y ∈ l,
          y ∉ (cleanup_old_sent_tweets l).1
          → pyIsDigit x = true → pyIsDigit y = true → pyIntNat y ≤ pyIntNat x)
      ∧ (∀ x ∈ (cleanup_old_sent_tweets l).1, ∀ y ∈ l,
          y ∉ (cleanup_old_sent_tweets l).1
          → pyIsDigit x = false → pyIsDigit y = true → pyIntNat y = 0) := by
  refine ⟨?_, ?_, ?_⟩
  · rw [cleanup_unfold_large l hlen, List.length_drop]
    have hpl : (List.insertionSort keyLe l).length = l.length :=
      (List.perm_insertionSort keyLe l).length_eq
    omega
  · intro x hx y hy hyn hdx hdy
    have hk := cleanup_excluded_le l hlen x hx y hy hyn
    rw [keyLe, sortKey, sortKey, if_pos hdx, if_pos hdy] at hk
    exact hk
  · intro x hx y hy hyn hdx hdy
    have hk := cleanup_excluded_le l hlen x hx y hy hyn
    rw [keyLe, sortKey, sortKey, if_pos hdy, if_neg (by simp [hdx])] at hk
    exact Nat.le_zero.mp hk

theorem compaction_bound_and_order_witness :
    ceList.Nodup
      ∧ 10000 < ceList.length
      ∧ (((cleanup_old_sent_tweets ceList).1.length = 8000)
          ∧ (∀ x ∈ (cleanup_old_sent_tweets ceList).1, ∀ y ∈ ceList,
              y ∉ (cleanup_old_sent_tweets ceList).1
              → pyIsDigit x = true → pyIsDigit y = true → pyIntNat y ≤ pyIntNat x)
          ∧ (∀ x ∈ (cleanup_old_sent_tweets ceList).1, ∀ y ∈ ceList,
              y ∉ (cleanup_old_sent_tweets ceList).1
              → pyIsDigit x = false → pyIsDigit y = true → pyIntNat y = 0)) :=
  ⟨ceList_nodup, by rw [ceList_length]; norm_num,
    compaction_bound_and_order ceList ceList_nodup (by rw [ceList_length]; norm_num)⟩

end Scrape
